import Mathlib

/-!
Verification of the heartbeat-bracelet front end (`static/js/app.js`).

The development shallowly embeds the client-side pipeline:
* `JSNum` models a JavaScript number for the sanitizer (finite values as
  rationals, plus NaN and the two infinities);
* `visualizeBracelet` models the geometry construction of
  `HeartbeatBraceletApp.visualizeBracelet`, including its NaN/Infinity
  repair loop over the vertex array;
* `generateBraceletRun` models the control flow of
  `HeartbeatBraceletApp.generateBracelet` (two sequential requests,
  error envelopes, alert on failure);
* `preNoiseAmplitude` / `sampleAmplitude` / `previewAmplitudes` model the
  waveform computed by `generateHeartbeatPreview` over the reals;
* `downloadSTL` / `downloadOBJ` model the download button handlers.

Machine floats are idealised: finite arithmetic is exact (rationals or
reals); the NaN/Infinity propagation that the sanitizer cares about is
modelled explicitly by `JSNum`.
-/

namespace HeartbeatBracelet

/-- A JavaScript number as seen by the sanitizer: a finite value (idealised
as a rational), NaN, or one of the two infinities. -/
inductive JSNum where
  | num (q : ℚ)
  | nan
  | posInf
  | negInf
deriving DecidableEq, Repr

/-- JavaScript `isNaN(v)` on a `JSNum`. -/
def JSNum.isNaN : JSNum → Bool
  | .nan => true
  | _ => false

/-- JavaScript `isFinite(v)` on a `JSNum`. -/
def JSNum.isFinite : JSNum → Bool
  | .num _ => true
  | _ => false

/-- The repair applied to a single vertex value in `visualizeBracelet`:
`if (isNaN(vertices[i]) || !isFinite(vertices[i])) vertices[i] = 0`. -/
def sanitizeValue (v : JSNum) : JSNum :=
  if v.isNaN || !v.isFinite then .num 0 else v

/-- `nanCount` of `visualizeBracelet`: the number of entries for which
`isNaN(vertices[i])` holds. -/
def countNaN (vs : List JSNum) : ℕ :=
  (vs.filter (fun v => v.isNaN)).length

/-- `infCount` of `visualizeBracelet`: the number of entries hitting the
`else if (!isFinite(vertices[i]))` branch, i.e. non-NaN non-finite values. -/
def countInf (vs : List JSNum) : ℕ :=
  (vs.filter (fun v => !v.isNaN && !v.isFinite)).length

/-- The claim-side count of anomalies: the number of non-finite entries. -/
def countNonFinite (vs : List JSNum) : ℕ :=
  (vs.filter (fun v => !v.isFinite)).length

/-- The vertex-repair pass of `visualizeBracelet`: when
`nanCount > 0 || infCount > 0`, every non-finite entry is overwritten
with 0; otherwise the array is left untouched. -/
def sanitizeVertices (vs : List JSNum) : List JSNum :=
  if 0 < countNaN vs ∨ 0 < countInf vs then vs.map sanitizeValue else vs

/-- The `model_data` payload of the `/generate_3d_bracelet` response:
flat vertex values, face indices, and optional normals and colors. -/
structure ModelData where
  vertices : List JSNum
  faces : List ℕ
  normals : Option (List JSNum)
  colors : Option (List JSNum)
deriving DecidableEq, Repr

/-- The Three.js geometry built by `visualizeBracelet`: the `position`,
index, `normal` and `color` attributes (`none` for an attribute the code
does not set from the payload). -/
structure Geometry where
  position : List JSNum
  index : List ℕ
  normal : Option (List JSNum)
  color : Option (List JSNum)
deriving DecidableEq, Repr

/-- `HeartbeatBraceletApp.visualizeBracelet`: repairs non-finite vertex
values, then builds the geometry, passing `faces`, `normals` and `colors`
through unchanged. -/
def visualizeBracelet (m : ModelData) : Geometry :=
  { position := sanitizeVertices m.vertices
    index := m.faces
    normal := m.normals
    color := m.colors }

/-- `HeartbeatBraceletApp.downloadSTL` / `downloadOBJ` either open the
download URL in a new window or alert the user. -/
inductive DownloadAction where
  | openWindow (url : String)
  | alertUser (msg : String)
deriving DecidableEq, Repr

/-- `HeartbeatBraceletApp.downloadSTL`, as a function of the
`currentSTLFile` field of the application state. -/
def downloadSTL (currentSTLFile : Option String) : DownloadAction :=
  match currentSTLFile with
  | some f => .openWindow ("/download_stl/" ++ f)
  | none => .alertUser ("Please generate a bracelet first!")

/-- `HeartbeatBraceletApp.downloadOBJ`: the body is a single call to
`this.downloadSTL()`. -/
def downloadOBJ (currentSTLFile : Option String) : DownloadAction :=
  downloadSTL currentSTLFile

/-- The `/generate_heartbeat` response envelope as consumed by
`generateBracelet`: the `success` flag, the sample payload (taken as
present on success, per the interface contract; finite floats idealised
as rationals), and an optional error message. -/
structure HeartbeatResponse where
  success : Bool
  heartbeat_data : List ℚ
  error : Option String

/-- The `/generate_3d_bracelet` response envelope as consumed by
`generateBracelet`. -/
structure BraceletResponse where
  success : Bool
  model_data : ModelData
  stl_file : Option String
  error : Option String

/-- The observable outcome of one `generateBracelet` run: whether the
second request (`generate3DBracelet`) was issued, the geometry handed to
the scene (if any), the stored STL file reference, and the alert message
shown on failure (if any). -/
structure RunResult where
  secondRequestIssued : Bool
  visualized : Option Geometry
  stlFile : Option String
  alert : Option String

/-- JavaScript `s || d` on an optional error-message string: the default is
used when the field is absent or the empty (falsy) string. -/
def jsOrElse (s : Option String) (d : String) : String :=
  match s with
  | some e => if e = "" then d else e
  | none => d

/-- `HeartbeatBraceletApp.generateBracelet`: await the heartbeat envelope;
on `success: false` throw (caught below as an alert) without issuing the
second request; otherwise issue `generate3DBracelet` with the payload; on
its `success: false` throw likewise; otherwise visualize the model data
and store the STL reference. The `catch` block alerts
`"Error generating bracelet: " + error.message`. -/
def generateBraceletRun (hb : HeartbeatResponse)
    (gen3d : List ℚ → BraceletResponse) : RunResult :=
  if hb.success = false then
    { secondRequestIssued := false, visualized := none, stlFile := none,
      alert := some ("Error generating bracelet: " ++
        jsOrElse hb.error ("Failed to generate heartbeat data")) }
  else
    let br := gen3d hb.heartbeat_data
    if br.success = false then
      { secondRequestIssued := true, visualized := none, stlFile := none,
        alert := some ("Error generating bracelet: " ++
          jsOrElse br.error ("Failed to generate 3D bracelet")) }
    else
      { secondRequestIssued := true,
        visualized := some (visualizeBracelet br.model_data),
        stlFile := br.stl_file, alert := none }

/-! ### The heartbeat waveform (real-valued model) -/

/-- The truncated integer part underlying the JavaScript `%` operator:
floor for nonnegative arguments, ceiling for negative ones. -/
noncomputable def jsTrunc (x : ℝ) : ℤ :=
  if 0 ≤ x then ⌊x⌋ else ⌈x⌉

/-- JavaScript `x % 1`: `x` minus its truncated integer part. -/
noncomputable def jsMod1 (x : ℝ) : ℝ :=
  x - jsTrunc x

/-- The pre-noise amplitude computed per sample in
`generateHeartbeatPreview`: `beatPhase = (t * beatsPerSecond) % 1`, then
the piecewise QRS / T-wave / baseline model of one cardiac cycle. -/
noncomputable def preNoiseAmplitude (heartRate activityLevel t : ℝ) : ℝ :=
  let beatsPerSecond := heartRate / 60
  let beatPhase := jsMod1 (t * beatsPerSecond)
  if beatPhase < 0.1 then
    Real.sin (beatPhase / 0.1 * Real.pi) * (0.8 + activityLevel * 0.4)
  else if beatPhase > 0.3 ∧ beatPhase < 0.6 then
    Real.sin ((beatPhase - 0.3) / 0.3 * Real.pi) * 0.3
  else 0

/-- One sample of `generateHeartbeatPreview` including the stress-based
noise term, with the `Math.random()` draw passed in explicitly. -/
noncomputable def sampleAmplitude (heartRate activityLevel stressLevel rand t : ℝ) : ℝ :=
  preNoiseAmplitude heartRate activityLevel t + (rand - 0.5) * stressLevel * 0.2

/-- The full preview amplitude sequence: for each canvas column
`i < width`, the sample time is `t = (i / width) * 3` (`timeSpan` is 3
seconds), with an explicit stream of `Math.random()` draws. -/
noncomputable def previewAmplitudes (width : ℕ) (heartRate activityLevel stressLevel : ℝ)
    (noise : ℕ → ℝ) : List ℝ :=
  (List.range width).map (fun i =>
    sampleAmplitude heartRate activityLevel stressLevel (noise i)
      ((i : ℝ) / (width : ℝ) * 3))

/-- The amplitude formula exactly as the specification sentence states it,
with `beat_phase` the fractional part of `t * heart_rate / 60`. -/
noncomputable def specAmplitude (heartRate activityLevel t : ℝ) : ℝ :=
  let beatPhase := Int.fract (t * (heartRate / 60))
  if beatPhase < 0.1 then
    Real.sin (beatPhase / 0.1 * Real.pi) * (0.8 + activityLevel * 0.4)
  else if 0.3 < beatPhase ∧ beatPhase < 0.6 then
    Real.sin ((beatPhase - 0.3) / 0.3 * Real.pi) * 0.3
  else 0

/-- Heartbeat input parameters, per the data model: integer heart rate and
duration, float stress and activity levels, an emotion tag. -/
structure HeartbeatParameters where
  heart_rate : ℤ
  stress_level : ℝ
  activity_level : ℝ
  emotion : String
  duration : ℤ

/-- The waveform-generation failure mode. -/
inductive HeartbeatError where
  | invalidParameter
deriving DecidableEq, Repr

/-- Modelled from the spec: the server-side `/generate_heartbeat` endpoint
(the WaveformSynthesizer) is not part of the client sources. Per the spec
it rejects `heart_rate ≤ 0` or `duration ≤ 0` with `InvalidParameter`
before any generation work, and otherwise produces
`duration * sample_rate` samples (the sample rate fixed at 50, as in the
client preview) of the piecewise cardiac-cycle model with stress noise. -/
noncomputable def generate_heartbeat (p : HeartbeatParameters) (noise : ℕ → ℝ) :
    Except HeartbeatError (List ℝ) :=
  if p.heart_rate ≤ 0 ∨ p.duration ≤ 0 then
    .error .invalidParameter
  else
    .ok ((List.range (p.duration.toNat * 50)).map (fun i =>
      sampleAmplitude (p.heart_rate : ℝ) p.activity_level p.stress_level (noise i)
        ((i : ℝ) / 50)))

/-! ### Helper lemmas about the sanitizer -/

theorem sanitizeValue_of_finite (v : JSNum) (h : v.isFinite = true) :
    sanitizeValue v = v := by
  cases v <;> simp_all [sanitizeValue, JSNum.isNaN, JSNum.isFinite]

theorem sanitizeValue_of_not_finite (v : JSNum) (h : v.isFinite = false) :
    sanitizeValue v = .num 0 := by
  cases v <;> simp_all [sanitizeValue, JSNum.isNaN, JSNum.isFinite]

theorem sanitizeValue_finite (v : JSNum) : (sanitizeValue v).isFinite = true := by
  cases v <;> simp [sanitizeValue, JSNum.isNaN, JSNum.isFinite]

theorem counts_zero_of_all_finite (vs : List JSNum)
    (h : ∀ v ∈ vs, v.isFinite = true) : countNaN vs = 0 ∧ countInf vs = 0 := by
  constructor
  · simp only [countNaN, List.length_eq_zero, List.filter_eq_nil_iff]
    intro v hv
    have := h v hv
    cases v <;> simp_all [JSNum.isNaN, JSNum.isFinite]
  · simp only [countInf, List.length_eq_zero, List.filter_eq_nil_iff]
    intro v hv
    have := h v hv
    cases v <;> simp_all [JSNum.isNaN, JSNum.isFinite]

theorem all_finite_of_counts_zero (vs : List JSNum)
    (h1 : countNaN vs = 0) (h2 : countInf vs = 0) :
    ∀ v ∈ vs, v.isFinite = true := by
  intro v hv
  rw [countNaN, List.length_eq_zero, List.filter_eq_nil_iff] at h1
  rw [countInf, List.length_eq_zero, List.filter_eq_nil_iff] at h2
  have hn := h1 v hv
  have hi := h2 v hv
  cases v <;> simp_all [JSNum.isNaN, JSNum.isFinite]

/-- Whether or not the repair loop runs, the vertex array ends up equal to
the elementwise-sanitized array: when the counts are zero the array is
already clean and the map is the identity. -/
theorem sanitizeVertices_eq_map (vs : List JSNum) :
    sanitizeVertices vs = vs.map sanitizeValue := by
  unfold sanitizeVertices
  split
  · rfl
  · rename_i h
    push_neg at h
    have hfin := all_finite_of_counts_zero vs (Nat.le_zero.mp h.1) (Nat.le_zero.mp h.2)
    have : vs.map sanitizeValue = vs.map id := by
      apply List.map_congr_left
      intro v hv
      exact sanitizeValue_of_finite v (hfin v hv)
    rw [this, List.map_id]

theorem sanitizeVertices_all_finite (vs : List JSNum) :
    ∀ v ∈ sanitizeVertices vs, v.isFinite = true := by
  intro v hv
  rw [sanitizeVertices_eq_map] at hv
  obtain ⟨w, _, rfl⟩ := List.mem_map.mp hv
  exact sanitizeValue_finite w

/-! ### Helper lemmas about the waveform -/

theorem jsMod1_eq_fract (x : ℝ) (h : 0 ≤ x) : jsMod1 x = Int.fract x := by
  unfold jsMod1 jsTrunc Int.fract
  rw [if_pos h]

theorem jsMod1_nonneg (x : ℝ) (h : 0 ≤ x) : 0 ≤ jsMod1 x := by
  rw [jsMod1_eq_fract x h]
  exact Int.fract_nonneg x

/-- Bounds for the piecewise cardiac-cycle amplitude, stated on the exact
if-then-else shape of `preNoiseAmplitude`. -/
theorem piecewise_amp_bounds (a bp : ℝ) (ha0 : 0 ≤ a) (ha1 : a ≤ 1) (hbp0 : 0 ≤ bp) :
    0 ≤ (if bp < 0.1 then Real.sin (bp / 0.1 * Real.pi) * (0.8 + a * 0.4)
      else if bp > 0.3 ∧ bp < 0.6 then Real.sin ((bp - 0.3) / 0.3 * Real.pi) * 0.3
      else 0) ∧
    (if bp < 0.1 then Real.sin (bp / 0.1 * Real.pi) * (0.8 + a * 0.4)
      else if bp > 0.3 ∧ bp < 0.6 then Real.sin ((bp - 0.3) / 0.3 * Real.pi) * 0.3
      else 0) ≤ 1.2 := by
  have hpi : (0:ℝ) < Real.pi := Real.pi_pos
  split
  · rename_i hqrs
    have harg0 : 0 ≤ bp / 0.1 * Real.pi := by positivity
    have harg1 : bp / 0.1 * Real.pi ≤ Real.pi := by
      have : bp / 0.1 ≤ 1 := by
        rw [div_le_one (by norm_num)]
        linarith
      nlinarith
    have hs0 : 0 ≤ Real.sin (bp / 0.1 * Real.pi) :=
      Real.sin_nonneg_of_nonneg_of_le_pi harg0 harg1
    have hs1 : Real.sin (bp / 0.1 * Real.pi) ≤ 1 := Real.sin_le_one _
    constructor
    · apply mul_nonneg hs0
      linarith
    · calc Real.sin (bp / 0.1 * Real.pi) * (0.8 + a * 0.4)
          ≤ 1 * (0.8 + a * 0.4) := by
            apply mul_le_mul_of_nonneg_right hs1
            linarith
      _ ≤ 1.2 := by linarith
  · split
    · rename_i hnq ht
      obtain ⟨ht3, ht6⟩ := ht
      have harg0 : 0 ≤ (bp - 0.3) / 0.3 * Real.pi := by
        apply mul_nonneg _ hpi.le
        apply div_nonneg _ (by norm_num)
        linarith
      have harg1 : (bp - 0.3) / 0.3 * Real.pi ≤ Real.pi := by
        have : (bp - 0.3) / 0.3 ≤ 1 := by
          rw [div_le_one (by norm_num)]
          linarith
        nlinarith
      have hs0 : 0 ≤ Real.sin ((bp - 0.3) / 0.3 * Real.pi) :=
        Real.sin_nonneg_of_nonneg_of_le_pi harg0 harg1
      have hs1 : Real.sin ((bp - 0.3) / 0.3 * Real.pi) ≤ 1 := Real.sin_le_one _
      constructor
      · apply mul_nonneg hs0
        norm_num
      · nlinarith
    · exact ⟨le_refl 0, by norm_num⟩

/-- `preNoiseAmplitude` is bounded in [0, 1.2] for activity in [0,1] and
nonnegative time and heart rate. -/
theorem preNoiseAmplitude_bounds (heartRate activityLevel t : ℝ)
    (hhr : 0 ≤ heartRate) (ht : 0 ≤ t)
    (hact0 : 0 ≤ activityLevel) (hact1 : activityLevel ≤ 1) :
    0 ≤ preNoiseAmplitude heartRate activityLevel t ∧
      preNoiseAmplitude heartRate activityLevel t ≤ 1.2 := by
  have hx : 0 ≤ t * (heartRate / 60) := mul_nonneg ht (div_nonneg hhr (by norm_num))
  have hbp0 : 0 ≤ jsMod1 (t * (heartRate / 60)) := jsMod1_nonneg _ hx
  unfold preNoiseAmplitude
  exact piecewise_amp_bounds activityLevel (jsMod1 (t * (heartRate / 60))) hact0 hact1 hbp0

/-! ### Claim theorems: sanitizer, control flow, downloads -/

/-- C2 counterexample: `visualizeBracelet` does not scan the normals: a
model whose only normal value is NaN reaches the geometry with the NaN
intact, so it is false that after sanitization every scanned normal value
is finite. -/
theorem visualize_skips_normals_cex :
    ¬ (∀ (m : ModelData) (ns : List JSNum),
        (visualizeBracelet m).normal = some ns → ∀ v ∈ ns, v.isFinite = true) := by
  intro h
  have h2 := h ⟨[], [], some [JSNum.nan], none⟩ [JSNum.nan] rfl JSNum.nan
    (List.mem_singleton.mpr rfl)
  exact absurd h2 (by decide)

/-- C2 (amended): the repair pass of `visualizeBracelet` rewrites the
vertex array elementwise, replacing every non-finite value with 0 and
leaving every finite value unchanged, so that every resulting vertex
value is finite. (Normals and colors are not scanned; see the
counterexample and C10.) -/
theorem visualize_sanitizes_vertices (m : ModelData) :
    (visualizeBracelet m).position = m.vertices.map sanitizeValue ∧
    (∀ v : JSNum, v.isFinite = true → sanitizeValue v = v) ∧
    (∀ v : JSNum, v.isFinite = false → sanitizeValue v = .num 0) ∧
    (∀ v ∈ (visualizeBracelet m).position, v.isFinite = true) :=
  ⟨sanitizeVertices_eq_map m.vertices,
   sanitizeValue_of_finite,
   sanitizeValue_of_not_finite,
   sanitizeVertices_all_finite m.vertices⟩

/-- Witness for the amended C2 at a concrete model. -/
theorem visualize_sanitizes_vertices_witness :
    (visualizeBracelet ⟨[JSNum.num 2, JSNum.nan, JSNum.posInf], [0], none, none⟩).position
      = [JSNum.num 2, JSNum.num 0, JSNum.num 0] ∧
    sanitizeValue (JSNum.num 2) = JSNum.num 2 ∧
    sanitizeValue JSNum.nan = JSNum.num 0 :=
  ⟨((visualize_sanitizes_vertices
        ⟨[JSNum.num 2, JSNum.nan, JSNum.posInf], [0], none, none⟩).1).trans (by decide),
   (visualize_sanitizes_vertices
        ⟨[JSNum.num 2, JSNum.nan, JSNum.posInf], [0], none, none⟩).2.1
      (JSNum.num 2) (by decide),
   (visualize_sanitizes_vertices
        ⟨[JSNum.num 2, JSNum.nan, JSNum.posInf], [0], none, none⟩).2.2.1
      JSNum.nan (by decide)⟩

/-- C3: sanitization is idempotent: on all-finite input the pass returns
the sequence unchanged, and applying the pass twice gives the same result
as applying it once. -/
theorem sanitize_idempotent :
    (∀ vs : List JSNum, (∀ v ∈ vs, v.isFinite = true) → sanitizeVertices vs = vs) ∧
    (∀ vs : List JSNum, sanitizeVertices (sanitizeVertices vs) = sanitizeVertices vs) := by
  have key : ∀ vs : List JSNum, (∀ v ∈ vs, v.isFinite = true) → sanitizeVertices vs = vs := by
    intro vs h
    rw [sanitizeVertices_eq_map]
    have h2 : vs.map sanitizeValue = vs.map id :=
      List.map_congr_left (fun v hv => sanitizeValue_of_finite v (h v hv))
    rw [h2, List.map_id]
  exact ⟨key, fun vs => key (sanitizeVertices vs) (sanitizeVertices_all_finite vs)⟩

/-- Witness for C3 at a concrete clean list. -/
theorem sanitize_idempotent_witness :
    sanitizeVertices [JSNum.num 1, JSNum.num 5] = [JSNum.num 1, JSNum.num 5] :=
  sanitize_idempotent.1 [JSNum.num 1, JSNum.num 5] (by decide)

/-- C6: the reported repair count `nanCount + infCount` equals the number
of non-finite entries of the input, and is zero on clean input. -/
theorem repair_count_eq_nonfinite :
    (∀ vs : List JSNum, countNaN vs + countInf vs = countNonFinite vs) ∧
    (∀ vs : List JSNum, (∀ v ∈ vs, v.isFinite = true) →
      countNaN vs + countInf vs = 0) := by
  constructor
  · intro vs
    induction vs with
    | nil => rfl
    | cons v vs ih =>
      cases v <;>
        simp [countNaN, countInf, countNonFinite, List.filter_cons,
          JSNum.isNaN, JSNum.isFinite] at ih ⊢ <;>
        omega
  · intro vs h
    obtain ⟨h1, h2⟩ := counts_zero_of_all_finite vs h
    rw [h1, h2]

/-- Witness for C6 at a concrete clean list. -/
theorem repair_count_eq_nonfinite_witness :
    countNaN [JSNum.num 3, JSNum.num 7] + countInf [JSNum.num 3, JSNum.num 7] = 0 :=
  repair_count_eq_nonfinite.2 [JSNum.num 3, JSNum.num 7] (by decide)

/-- C7: the two requests are sequential: on first-stage success the second
request is issued; when the first envelope carries `success: false`, the
second request is never issued, nothing is visualized, and the envelope's
error message is surfaced in the alert. -/
theorem firstFailure_aborts :
    (∀ (hb : HeartbeatResponse) (gen3d : List ℚ → BraceletResponse),
      hb.success = true →
      (generateBraceletRun hb gen3d).secondRequestIssued = true) ∧
    (∀ (hb : HeartbeatResponse) (gen3d : List ℚ → BraceletResponse) (msg : String),
      hb.success = false → hb.error = some msg → msg ≠ "" →
      (generateBraceletRun hb gen3d).secondRequestIssued = false ∧
      (generateBraceletRun hb gen3d).visualized = none ∧
      (generateBraceletRun hb gen3d).alert
        = some ("Error generating bracelet: " ++ msg)) := by
  constructor
  · intro hb gen3d hs
    unfold generateBraceletRun
    rw [hs]
    simp only [Bool.true_eq_false, if_false]
    split <;> rfl
  · intro hb gen3d msg hs he hne
    unfold generateBraceletRun
    rw [hs, he]
    simp [jsOrElse, hne]

/-- Witness for C7 at a concrete failing first envelope. -/
theorem firstFailure_aborts_witness :
    (generateBraceletRun ⟨false, [], some ("server rejected")⟩
        (fun _ => ⟨true, ⟨[], [], none, none⟩, none, none⟩)).secondRequestIssued = false ∧
    (generateBraceletRun ⟨false, [], some ("server rejected")⟩
        (fun _ => ⟨true, ⟨[], [], none, none⟩, none, none⟩)).visualized = none ∧
    (generateBraceletRun ⟨false, [], some ("server rejected")⟩
        (fun _ => ⟨true, ⟨[], [], none, none⟩, none, none⟩)).alert
      = some ("Error generating bracelet: " ++ "server rejected") :=
  firstFailure_aborts.2 ⟨false, [], some ("server rejected")⟩
    (fun _ => ⟨true, ⟨[], [], none, none⟩, none, none⟩) ("server rejected")
    rfl rfl (by decide)

/-- C9: `downloadOBJ` performs exactly the same action as `downloadSTL` in
every application state, and on a generated bracelet it opens the STL
download URL (not an OBJ one). -/
theorem downloadOBJ_eq_downloadSTL :
    (∀ st : Option String, downloadOBJ st = downloadSTL st) ∧
    (∀ f : String, downloadOBJ (some f)
      = DownloadAction.openWindow ("/download_stl/" ++ f)) :=
  ⟨fun _ => rfl, fun _ => rfl⟩

/-- C10: the repair pass touches only the vertex array: faces, normals and
colors are handed to the geometry exactly as received, whatever values
they contain. -/
theorem visualize_frame_faces_normals_colors (m : ModelData) :
    (visualizeBracelet m).index = m.faces ∧
    (visualizeBracelet m).normal = m.normals ∧
    (visualizeBracelet m).color = m.colors :=
  ⟨rfl, rfl, rfl⟩

/-! ### Claim theorems: waveform -/

/-- C1: for every sample time `t ≥ 0` (and nonnegative heart rate), the
pre-noise amplitude computed by `generateHeartbeatPreview` equals the
specification's piecewise formula evaluated at `beat_phase`, the
fractional part of `t * heart_rate / 60`. -/
theorem preview_amplitude_matches_spec (heartRate activityLevel t : ℝ)
    (ht : 0 ≤ t) (hhr : 0 ≤ heartRate) :
    preNoiseAmplitude heartRate activityLevel t
      = specAmplitude heartRate activityLevel t := by
  have hx : 0 ≤ t * (heartRate / 60) := mul_nonneg ht (div_nonneg hhr (by norm_num))
  simp only [preNoiseAmplitude, specAmplitude]
  rw [jsMod1_eq_fract _ hx]

/-- Witness for C1 at `t = 0`, `heart_rate = 72`. -/
theorem preview_amplitude_matches_spec_witness :
    (0:ℝ) ≤ 0 ∧ (0:ℝ) ≤ 72 ∧
    preNoiseAmplitude 72 (1/2) 0 = specAmplitude 72 (1/2) 0 :=
  ⟨le_refl 0, by norm_num,
    preview_amplitude_matches_spec 72 (1/2) 0 (le_refl 0) (by norm_num)⟩

/-- C4: with `stress_level = 0` the preview waveform is a pure function of
the parameters: any two random streams produce identical amplitude
sequences. -/
theorem preview_deterministic_no_stress (width : ℕ) (heartRate activityLevel : ℝ)
    (noiseA noiseB : ℕ → ℝ) :
    previewAmplitudes width heartRate activityLevel 0 noiseA
      = previewAmplitudes width heartRate activityLevel 0 noiseB := by
  unfold previewAmplitudes sampleAmplitude
  simp [mul_zero, zero_mul, add_zero]

/-- C5: for activity and stress levels in [0,1], a random draw in [0,1)
and nonnegative time and heart rate, the pre-noise amplitude lies in
[0, 1.2], the noise term is at most `0.5 * stress_level * 0.2` in absolute
value, and the final amplitude stays within the pre-noise range widened by
`0.1 * stress_level`. -/
theorem amplitude_bounded (heartRate activityLevel stressLevel rand t : ℝ)
    (hhr : 0 ≤ heartRate) (ht : 0 ≤ t)
    (hact0 : 0 ≤ activityLevel) (hact1 : activityLevel ≤ 1)
    (hst0 : 0 ≤ stressLevel) (_hst1 : stressLevel ≤ 1)
    (hrd0 : 0 ≤ rand) (hrd1 : rand < 1) :
    (0 ≤ preNoiseAmplitude heartRate activityLevel t ∧
      preNoiseAmplitude heartRate activityLevel t ≤ 1.2) ∧
    |(rand - 0.5) * stressLevel * 0.2| ≤ 0.5 * stressLevel * 0.2 ∧
    (-(0.1 * stressLevel) ≤ sampleAmplitude heartRate activityLevel stressLevel rand t ∧
      sampleAmplitude heartRate activityLevel stressLevel rand t
        ≤ 1.2 + 0.1 * stressLevel) := by
  have hpre := preNoiseAmplitude_bounds heartRate activityLevel t hhr ht hact0 hact1
  have hnoise : |(rand - 0.5) * stressLevel * 0.2| ≤ 0.5 * stressLevel * 0.2 := by
    rw [abs_mul, abs_mul, abs_of_nonneg hst0, show |(0.2:ℝ)| = 0.2 by norm_num]
    have h1 : |rand - 0.5| ≤ 0.5 := abs_le.mpr ⟨by linarith, by linarith⟩
    have h2 : |rand - 0.5| * stressLevel ≤ 0.5 * stressLevel :=
      mul_le_mul_of_nonneg_right h1 hst0
    exact mul_le_mul_of_nonneg_right h2 (by norm_num)
  obtain ⟨hlo, hhi⟩ := abs_le.mp hnoise
  refine ⟨hpre, hnoise, ?_, ?_⟩
  · unfold sampleAmplitude
    linarith [hpre.1]
  · unfold sampleAmplitude
    linarith [hpre.2]

/-- Witness for C5 at a concrete parameter point. -/
theorem amplitude_bounded_witness :
    (0 ≤ preNoiseAmplitude 72 0 0 ∧ preNoiseAmplitude 72 0 0 ≤ 1.2) ∧
    |((0:ℝ) - 0.5) * 0 * 0.2| ≤ 0.5 * 0 * 0.2 ∧
    (-(0.1 * 0) ≤ sampleAmplitude 72 0 0 0 0 ∧
      sampleAmplitude 72 0 0 0 0 ≤ 1.2 + 0.1 * 0) :=
  amplitude_bounded 72 0 0 0 0 (by norm_num) (le_refl 0) (le_refl 0) (by norm_num)
    (le_refl 0) (by norm_num) (le_refl 0) (by norm_num)

/-- C8: a heart rate or duration that is not positive fails with
`InvalidParameter` (before any samples are generated), and there is no
other failure mode: on valid parameters the synthesizer succeeds, with
`duration * 50` samples. -/
theorem generate_heartbeat_errors :
    (∀ (p : HeartbeatParameters) (noise : ℕ → ℝ),
      p.heart_rate ≤ 0 ∨ p.duration ≤ 0 →
      generate_heartbeat p noise = .error .invalidParameter) ∧
    (∀ (p : HeartbeatParameters) (noise : ℕ → ℝ),
      0 < p.heart_rate → 0 < p.duration →
      ∃ samples : List ℝ, generate_heartbeat p noise = .ok samples ∧
        samples.length = p.duration.toNat * 50) := by
  constructor
  · intro p noise h
    unfold generate_heartbeat
    rw [if_pos h]
  · intro p noise h1 h2
    unfold generate_heartbeat
    rw [if_neg (by push_neg; exact ⟨h1, h2⟩)]
    exact ⟨_, rfl, by simp⟩

/-- Witness for C8 at a concrete invalid parameter set. -/
theorem generate_heartbeat_errors_witness :
    generate_heartbeat ⟨0, 0, 0, ("calm"), 3⟩ (fun _ => 0)
      = .error .invalidParameter :=
  generate_heartbeat_errors.1 ⟨0, 0, 0, ("calm"), 3⟩ (fun _ => 0)
    (Or.inl (by norm_num))

end HeartbeatBracelet
